import Mathlib

/-!
Verification of the model-fallback request dispatcher of `src/app_api.py`.

The embedding models:
* the mode registry `MODE_PROMPTS` (a fixed four-entry dictionary),
* the network client as an arbitrary function from requests to results
  (a successful completion or a raised exception, carried as its message),
* `get_response` (the dispatcher), including the `KeyError` raised by an
  unknown mode lookup (Python renders `str(KeyError(k))` as the quoted key),
  the fallback loop over the four candidate models, the extraction of the
  first choice (an empty choice list raises `IndexError`, message
  "list index out of range"), and the final error classification,
* the transcript updates of the display surface (append a user turn and an
  assistant turn per submission; clear empties the list).

Python string containment `a in b` is code-point-sequence containment,
embedded as `List.IsInfix` on `String.data`.
-/

namespace QChat

/-- One chat message sent to the API: a role and a content string. -/
structure Message where
  role : String
  content : String
deriving DecidableEq, Repr

/-- One chat-completion request as built in `get_response`: the model name,
the message list and the fixed sampling parameters. -/
structure Request where
  model : String
  messages : List Message
  max_tokens : Nat
  temperature : ℚ
  top_p : ℚ
deriving DecidableEq, Repr

/-- The message object inside a returned choice. -/
structure ChoiceMessage where
  content : String
deriving DecidableEq, Repr

/-- One choice of a returned completion. -/
structure Choice where
  message : ChoiceMessage
deriving DecidableEq, Repr

/-- A returned completion: a list of choices. -/
structure Completion where
  choices : List Choice
deriving DecidableEq, Repr

/-- Outcome of one call to `client.chat.completions.create`: either a
completion object, or an exception carrying its message (`str(e)`). -/
inductive ClientResult where
  | ok (completion : Completion)
  | exn (msg : String)
deriving DecidableEq, Repr

/-- The network client, as the dispatcher sees it: any function from a
request to a completion or an exception. -/
def Client : Type := Request → ClientResult

/-- One mode-registry entry: a system prompt and an icon. -/
structure ModeConfig where
  system_prompt : String
  icon : String
deriving DecidableEq, Repr

/-- The fixed mode registry `MODE_PROMPTS` of `app_api.py`: lookup of a
mode name, `none` for a name outside the four fixed keys (Python raises
`KeyError` there). -/
def MODE_PROMPTS (name : String) : Option ModeConfig :=
  if name = "General Chat" then
    some ⟨"You are a helpful and friendly English learning assistant. Help the user with their questions in a clear and engaging way.", "💬"⟩
  else if name = "Grammar Checker" then
    some ⟨"You are an expert English grammar teacher. Analyze the user\x27s text for grammar errors, explain the mistakes, and provide corrected versions with clear explanations.", "✏️"⟩
  else if name = "Paragraph Writer" then
    some ⟨"You are a creative writing assistant. Help users write well-structured, coherent paragraphs on various topics. Provide multiple style options (formal, casual, academic) when appropriate.", "📝"⟩
  else if name = "Python Helper" then
    some ⟨"You are a Python programming tutor. Help users understand Python concepts, debug code, write better code, and follow best practices. Provide clear explanations with examples.", "🐍"⟩
  else
    none

/-- The fixed ordered candidate list `models_to_try` of `get_response`. -/
def models_to_try : List String :=
  ["Qwen/Qwen2.5-1.5B-Instruct",
   "mistralai/Mistral-7B-Instruct-v0.3",
   "meta-llama/Llama-3.2-3B-Instruct",
   "google/gemma-2-2b-it"]

/-- `models_to_try[-1]`, the candidate against which the loop compares the
current model to decide whether to re-raise. -/
def lastCandidate : String := models_to_try.getLastD ""

/-- Python substring containment `needle in hay`, on code-point sequences. -/
def strContains (hay needle : String) : Bool :=
  decide (needle.data <:+: hay.data)

/-- Python `s.lower()`, as a code-point-wise lowercasing (the classified
substrings are plain ASCII, where the two agree). -/
def pyLower (s : String) : String := ⟨s.data.map Char.toLower⟩

/-- The request built for one candidate inside the loop: two messages
(system prompt, then user input) and the fixed sampling parameters. -/
def mkRequest (model system_prompt user_input : String) : Request :=
  { model := model
    messages := [⟨"system", system_prompt⟩, ⟨"user", user_input⟩]
    max_tokens := 512
    temperature := 7/10
    top_p := 9/10 }

/-- The warming-up message returned for a `TransientUnavailable` condition. -/
def WARMING_MSG : String :=
  "⚠️ The model is warming up. Please wait a moment and try again. This happens when the model hasn\x27t been used recently on the HuggingFace servers.\n\n**Tip:** Try clicking your message again in a few seconds."

/-- The check-credential message returned for an `AuthFailure` condition. -/
def AUTH_MSG : String :=
  "❌ Authentication error. Please check your HF_TOKEN in the .env file."

/-- The error classification of the outer `except` block of `get_response`:
string-pattern matching on the final failure message. -/
def classify (error_msg : String) : String :=
  if strContains error_msg "model_pending_deploy" ||
      strContains error_msg "not ready for inference" then
    WARMING_MSG
  else if strContains (pyLower error_msg) "authentication" ||
      strContains (pyLower error_msg) "unauthorized" then
    AUTH_MSG
  else
    "Error generating response: " ++ error_msg

/-- Outcome of the `for model in models_to_try` loop: an executed `return`,
an exception escaping the loop, or the loop running off the end of the list
(unreachable for the fixed non-empty candidate list). -/
inductive LoopOutcome where
  | returned (text : String)
  | raised (msg : String)
  | fellThrough
deriving DecidableEq, Repr

/-- The candidate loop of `get_response`, instrumented with the list of
requests it issues.  For each candidate: issue the request; on a completion
extract the first choice (an empty choice list raises `IndexError`); on an
exception, continue with the next candidate unless the current model equals
`models_to_try[-1]`, in which case re-raise. -/
def runModels (client : Client) (system_prompt user_input lastM : String) :
    List String → LoopOutcome × List Request
  | [] => (.fellThrough, [])
  | model :: rest =>
    let req := mkRequest model system_prompt user_input
    match client req with
    | .ok completion =>
      match completion.choices with
      | choice :: _ => (.returned choice.message.content, [req])
      | [] =>
        if model = lastM then (.raised "list index out of range", [req])
        else
          let r := runModels client system_prompt user_input lastM rest
          (r.1, req :: r.2)
    | .exn msg =>
      if model = lastM then (.raised msg, [req])
      else
        let r := runModels client system_prompt user_input lastM rest
        (r.1, req :: r.2)

/-- Python `str(KeyError(k))`: the representation of the missing key, the
key surrounded by single quotes. -/
def keyErrorStr (key : String) : String := "\x27" ++ key ++ "\x27"

/-- The dispatcher `get_response`, instrumented with the list of requests
issued.  An unknown mode raises `KeyError` before the loop starts, caught by
the outer `except` and classified; a loop exception is classified; a loop
`return` is returned as is.  `none` models Python falling off the function
body and returning `None` (unreachable for the fixed candidate list). -/
def dispatch (client : Client) (user_input mode : String) :
    Option String × List Request :=
  match MODE_PROMPTS mode with
  | none => (some (classify (keyErrorStr mode)), [])
  | some cfg =>
    match runModels client cfg.system_prompt user_input lastCandidate models_to_try with
    | (.returned text, reqs) => (some text, reqs)
    | (.raised msg, reqs) => (some (classify msg), reqs)
    | (.fellThrough, reqs) => (none, reqs)

/-- The dispatcher as its caller sees it: just the returned text. -/
def get_response (client : Client) (user_input mode : String) : Option String :=
  (dispatch client user_input mode).1

/-- One transcript turn, as stored in `st.session_state.messages`. -/
structure ChatTurn where
  role : String
  content : String
deriving DecidableEq, Repr

/-- One display-surface action: a user submission (carrying the prompt and
the dispatcher's returned string) or the Clear Chat button. -/
inductive UiEvent where
  | submit (prompt response : String)
  | clear
deriving DecidableEq, Repr

/-- The transcript update of `app_api.py`: a submission appends the user
turn and then the assistant turn; Clear Chat resets the list to empty. -/
def applyEvent : UiEvent → List ChatTurn → List ChatTurn
  | .submit prompt response, msgs =>
    (msgs ++ [⟨"user", prompt⟩]) ++ [⟨"assistant", response⟩]
  | .clear, _ => []

/-- The transcript produced by a chronological sequence of actions,
starting from the initial empty transcript. -/
def runEvents (events : List UiEvent) : List ChatTurn :=
  events.foldl (fun msgs e => applyEvent e msgs) []

/-- The (prompt, response) pairs submitted since the last clear action, in
chronological order. -/
def sinceLastClear (events : List UiEvent) : List (String × String) :=
  events.foldl
    (fun acc e =>
      match e with
      | .submit prompt response => acc ++ [(prompt, response)]
      | .clear => [])
    []

/-- The transcript the spec prescribes: the submissions since the last
clear, each as a user turn immediately followed by an assistant turn. -/
def expectedTranscript (events : List UiEvent) : List ChatTurn :=
  (sinceLastClear events).flatMap
    (fun pr => [⟨"user", pr.1⟩, ⟨"assistant", pr.2⟩])

/-- A client behaviour that raises on every attempt, always with the same
message. -/
def failClient (msg : String) : Client := fun _ => .exn msg

/-- A client behaviour that succeeds on every attempt with one choice. -/
def okClient : Client := fun _ => .ok ⟨[⟨⟨"hello"⟩⟩]⟩

/-- A client behaviour that raises on the first candidate and succeeds on
every other request. -/
def mixedClient : Client := fun r =>
  if r.model = "Qwen/Qwen2.5-1.5B-Instruct" then .exn "boom"
  else .ok ⟨[⟨⟨"fallback answer"⟩⟩]⟩

/- ------------------------------------------------------------------ -/
/- Helper lemmas                                                      -/
/- ------------------------------------------------------------------ -/

lemma lastCandidate_eq : lastCandidate = "google/gemma-2-2b-it" := rfl

lemma runModels_all_fail (client : Client) (sp ui e1 e2 e3 e4 : String)
    (h1 : client (mkRequest "Qwen/Qwen2.5-1.5B-Instruct" sp ui) = .exn e1)
    (h2 : client (mkRequest "mistralai/Mistral-7B-Instruct-v0.3" sp ui) = .exn e2)
    (h3 : client (mkRequest "meta-llama/Llama-3.2-3B-Instruct" sp ui) = .exn e3)
    (h4 : client (mkRequest "google/gemma-2-2b-it" sp ui) = .exn e4) :
    runModels client sp ui lastCandidate models_to_try =
      (.raised e4, models_to_try.map fun m => mkRequest m sp ui) := by
  simp [models_to_try, lastCandidate_eq, runModels, h1, h2, h3, h4]

lemma runModels_ne_fellThrough (client : Client) (sp ui lastM : String) :
    ∀ ms : List String, lastM ∈ ms →
      (runModels client sp ui lastM ms).1 ≠ LoopOutcome.fellThrough := by
  intro ms
  induction ms with
  | nil => intro h; cases h
  | cons m rest ih =>
    intro hmem
    cases hcl : client (mkRequest m sp ui) with
    | ok comp =>
      cases hch : comp.choices with
      | cons c cs => simp [runModels, hcl, hch]
      | nil =>
        by_cases hm : m = lastM
        · subst hm; simp [runModels, hcl, hch]
        · have hrest : lastM ∈ rest := by
            rcases List.mem_cons.mp hmem with h | h
            · exact absurd h.symm hm
            · exact h
          simp only [runModels, hcl, hch, if_neg hm]
          exact ih hrest
    | exn msg =>
      by_cases hm : m = lastM
      · subst hm; simp [runModels, hcl]
      · have hrest : lastM ∈ rest := by
          rcases List.mem_cons.mp hmem with h | h
          · exact absurd h.symm hm
          · exact h
        simp only [runModels, hcl, if_neg hm]
        exact ih hrest

lemma runModels_trace_shape (client : Client) (sp ui lastM : String) :
    ∀ (ms : List String) (r : Request),
      r ∈ (runModels client sp ui lastM ms).2 →
      ∃ m ∈ ms, r = mkRequest m sp ui := by
  intro ms
  induction ms with
  | nil => intro r hr; simp [runModels] at hr
  | cons m rest ih =>
    intro r hr
    cases hcl : client (mkRequest m sp ui) with
    | ok comp =>
      cases hch : comp.choices with
      | cons c cs =>
        simp only [runModels, hcl, hch] at hr
        simp only [List.mem_singleton] at hr
        exact ⟨m, List.mem_cons_self m rest, hr⟩
      | nil =>
        by_cases hm : m = lastM
        · simp only [runModels, hcl, hch, if_pos hm, List.mem_singleton] at hr
          exact ⟨m, List.mem_cons_self m rest, hr⟩
        · simp only [runModels, hcl, hch, if_neg hm, List.mem_cons] at hr
          rcases hr with hr | hr
          · exact ⟨m, List.mem_cons_self m rest, hr⟩
          · obtain ⟨m2, hm2, hr2⟩ := ih r hr
            exact ⟨m2, List.mem_cons_of_mem m hm2, hr2⟩
    | exn msg =>
      by_cases hm : m = lastM
      · simp only [runModels, hcl, if_pos hm, List.mem_singleton] at hr
        exact ⟨m, List.mem_cons_self m rest, hr⟩
      · simp only [runModels, hcl, if_neg hm, List.mem_cons] at hr
        rcases hr with hr | hr
        · exact ⟨m, List.mem_cons_self m rest, hr⟩
        · obtain ⟨m2, hm2, hr2⟩ := ih r hr
          exact ⟨m2, List.mem_cons_of_mem m hm2, hr2⟩

lemma dispatch_trace (client : Client) (ui mode : String) (cfg : ModeConfig)
    (hmode : MODE_PROMPTS mode = some cfg) :
    (dispatch client ui mode).2 =
      (runModels client cfg.system_prompt ui lastCandidate models_to_try).2 := by
  unfold dispatch
  rw [hmode]
  rcases h : runModels client cfg.system_prompt ui lastCandidate models_to_try with ⟨out, reqs⟩
  cases out <;> simp [h]

/- ------------------------------------------------------------------ -/
/- Claim theorems                                                     -/
/- ------------------------------------------------------------------ -/

/-- C2: for every user text, every mode name and every behaviour of the
network client (including the client raising on every attempt), the
dispatcher returns a string and never propagates an exception to its
caller (`none` would model falling off the function body, `isSome` states
that a string is always produced). -/
theorem C2_dispatch_total (client : Client) (ui mode : String) :
    (get_response client ui mode).isSome := by
  unfold get_response dispatch
  cases hm : MODE_PROMPTS mode with
  | none => simp
  | some cfg =>
    have hne := runModels_ne_fellThrough client cfg.system_prompt ui lastCandidate
      models_to_try (by decide)
    rcases h : runModels client cfg.system_prompt ui lastCandidate models_to_try with ⟨out, reqs⟩
    rw [h] at hne
    cases out with
    | returned text => simp [h]
    | raised msg => simp [h]
    | fellThrough => simp at hne

/-- C3: when all four candidates fail and the final attempt's error message
contains the substring "model_pending_deploy" or the substring
"not ready for inference", the dispatcher returns the fixed warming-up
message `WARMING_MSG` — one exact literal, independent of the user text,
the mode and the error messages of the earlier attempts. -/
theorem C3_transient_message (client : Client) (ui mode : String) (cfg : ModeConfig)
    (hmode : MODE_PROMPTS mode = some cfg) (e1 e2 e3 e4 : String)
    (h1 : client (mkRequest "Qwen/Qwen2.5-1.5B-Instruct" cfg.system_prompt ui) = .exn e1)
    (h2 : client (mkRequest "mistralai/Mistral-7B-Instruct-v0.3" cfg.system_prompt ui) = .exn e2)
    (h3 : client (mkRequest "meta-llama/Llama-3.2-3B-Instruct" cfg.system_prompt ui) = .exn e3)
    (h4 : client (mkRequest "google/gemma-2-2b-it" cfg.system_prompt ui) = .exn e4)
    (htrans : strContains e4 "model_pending_deploy" = true ∨
      strContains e4 "not ready for inference" = true) :
    get_response client ui mode = some WARMING_MSG := by
  unfold get_response dispatch
  simp only [hmode]
  rw [runModels_all_fail client cfg.system_prompt ui e1 e2 e3 e4 h1 h2 h3 h4]
  rcases htrans with h | h <;> simp [classify, h]

/-- C3 witness: a concrete all-fail run whose final message contains
"model_pending_deploy" yields exactly `WARMING_MSG`. -/
theorem C3_transient_message_witness :
    get_response (failClient "x model_pending_deploy y") "hi" "General Chat" =
      some WARMING_MSG :=
  C3_transient_message (failClient "x model_pending_deploy y") "hi" "General Chat" _ rfl
    "x model_pending_deploy y" "x model_pending_deploy y" "x model_pending_deploy y"
    "x model_pending_deploy y" rfl rfl rfl rfl (Or.inl (by decide))

/-- C4: when all four candidates fail, the final attempt's error message
contains "authentication" or "unauthorized" after lowercasing (so in any
mixture of case) and contains no transient substring, the dispatcher
returns the fixed check-credential message `AUTH_MSG`. -/
theorem C4_auth_message (client : Client) (ui mode : String) (cfg : ModeConfig)
    (hmode : MODE_PROMPTS mode = some cfg) (e1 e2 e3 e4 : String)
    (h1 : client (mkRequest "Qwen/Qwen2.5-1.5B-Instruct" cfg.system_prompt ui) = .exn e1)
    (h2 : client (mkRequest "mistralai/Mistral-7B-Instruct-v0.3" cfg.system_prompt ui) = .exn e2)
    (h3 : client (mkRequest "meta-llama/Llama-3.2-3B-Instruct" cfg.system_prompt ui) = .exn e3)
    (h4 : client (mkRequest "google/gemma-2-2b-it" cfg.system_prompt ui) = .exn e4)
    (hnt1 : strContains e4 "model_pending_deploy" = false)
    (hnt2 : strContains e4 "not ready for inference" = false)
    (hauth : strContains (pyLower e4) "authentication" = true ∨
      strContains (pyLower e4) "unauthorized" = true) :
    get_response client ui mode = some AUTH_MSG := by
  unfold get_response dispatch
  simp only [hmode]
  rw [runModels_all_fail client cfg.system_prompt ui e1 e2 e3 e4 h1 h2 h3 h4]
  rcases hauth with h | h <;> simp [classify, hnt1, hnt2, h]

/-- C4 witness: a concrete all-fail run whose final message contains
"UnAuthorized" in mixed case yields exactly `AUTH_MSG`. -/
theorem C4_auth_message_witness :
    get_response (failClient "Request UnAuthorized (401)") "hi" "Python Helper" =
      some AUTH_MSG :=
  C4_auth_message (failClient "Request UnAuthorized (401)") "hi" "Python Helper" _ rfl
    "Request UnAuthorized (401)" "Request UnAuthorized (401)" "Request UnAuthorized (401)"
    "Request UnAuthorized (401)" rfl rfl rfl rfl (by decide) (by decide)
    (Or.inr (by decide))

/-- C5: when all four candidates fail and the final attempt's error message
matches neither the transient substrings nor the authentication substrings,
the dispatcher returns "Error generating response: " followed by the raw
final message, a string that contains that raw message verbatim. -/
theorem C5_generic_message (client : Client) (ui mode : String) (cfg : ModeConfig)
    (hmode : MODE_PROMPTS mode = some cfg) (e1 e2 e3 e4 : String)
    (h1 : client (mkRequest "Qwen/Qwen2.5-1.5B-Instruct" cfg.system_prompt ui) = .exn e1)
    (h2 : client (mkRequest "mistralai/Mistral-7B-Instruct-v0.3" cfg.system_prompt ui) = .exn e2)
    (h3 : client (mkRequest "meta-llama/Llama-3.2-3B-Instruct" cfg.system_prompt ui) = .exn e3)
    (h4 : client (mkRequest "google/gemma-2-2b-it" cfg.system_prompt ui) = .exn e4)
    (hnt1 : strContains e4 "model_pending_deploy" = false)
    (hnt2 : strContains e4 "not ready for inference" = false)
    (hna1 : strContains (pyLower e4) "authentication" = false)
    (hna2 : strContains (pyLower e4) "unauthorized" = false) :
    get_response client ui mode = some ("Error generating response: " ++ e4) ∧
      e4.data <:+: ("Error generating response: " ++ e4).data := by
  constructor
  · unfold get_response dispatch
    simp only [hmode]
    rw [runModels_all_fail client cfg.system_prompt ui e1 e2 e3 e4 h1 h2 h3 h4]
    simp [classify, hnt1, hnt2, hna1, hna2]
  · rw [String.data_append]
    exact (List.suffix_append _ _).isInfix

/-- C5 witness: a concrete all-fail run with the unrelated final message
"rate limit exceeded" yields the generic message containing it verbatim. -/
theorem C5_generic_message_witness :
    get_response (failClient "rate limit exceeded") "hi" "General Chat" =
        some ("Error generating response: " ++ "rate limit exceeded") ∧
      ("rate limit exceeded" : String).data <:+:
        (("Error generating response: " ++ "rate limit exceeded" : String)).data :=
  C5_generic_message (failClient "rate limit exceeded") "hi" "General Chat" _ rfl
    "rate limit exceeded" "rate limit exceeded" "rate limit exceeded" "rate limit exceeded"
    rfl rfl rfl rfl (by decide) (by decide) (by decide) (by decide)

/-- C10: when all four candidates fail and the final attempt's error message
contains both a transient substring and (after lowercasing) an
authentication substring, the dispatcher returns the warming-up message:
the transient classification is tested first and takes precedence. -/
theorem C10_transient_precedence (client : Client) (ui mode : String) (cfg : ModeConfig)
    (hmode : MODE_PROMPTS mode = some cfg) (e1 e2 e3 e4 : String)
    (h1 : client (mkRequest "Qwen/Qwen2.5-1.5B-Instruct" cfg.system_prompt ui) = .exn e1)
    (h2 : client (mkRequest "mistralai/Mistral-7B-Instruct-v0.3" cfg.system_prompt ui) = .exn e2)
    (h3 : client (mkRequest "meta-llama/Llama-3.2-3B-Instruct" cfg.system_prompt ui) = .exn e3)
    (h4 : client (mkRequest "google/gemma-2-2b-it" cfg.system_prompt ui) = .exn e4)
    (htrans : strContains e4 "model_pending_deploy" = true ∨
      strContains e4 "not ready for inference" = true)
    (_hauth : strContains (pyLower e4) "authentication" = true ∨
      strContains (pyLower e4) "unauthorized" = true) :
    get_response client ui mode = some WARMING_MSG := by
  unfold get_response dispatch
  simp only [hmode]
  rw [runModels_all_fail client cfg.system_prompt ui e1 e2 e3 e4 h1 h2 h3 h4]
  rcases htrans with h | h <;> simp [classify, h]

/-- C10 witness: a final message carrying both "unauthorized" and
"model_pending_deploy" yields the warming-up message. -/
theorem C10_transient_precedence_witness :
    get_response (failClient "unauthorized: model_pending_deploy") "hi" "General Chat" =
      some WARMING_MSG :=
  C10_transient_precedence (failClient "unauthorized: model_pending_deploy") "hi"
    "General Chat" _ rfl
    "unauthorized: model_pending_deploy" "unauthorized: model_pending_deploy"
    "unauthorized: model_pending_deploy" "unauthorized: model_pending_deploy"
    rfl rfl rfl rfl (Or.inl (by decide)) (Or.inr (by decide))

/-- C6: the registry maps each of the four fixed mode names to its expected
(system prompt, icon) pair, and lookup fails (`none`, the `UnknownMode`
condition) for every string outside the fixed set: the registry contains
exactly the four fixed modes. -/
theorem C6_mode_registry :
    MODE_PROMPTS "General Chat" =
      some ⟨"You are a helpful and friendly English learning assistant. Help the user with their questions in a clear and engaging way.", "💬"⟩ ∧
    MODE_PROMPTS "Grammar Checker" =
      some ⟨"You are an expert English grammar teacher. Analyze the user\x27s text for grammar errors, explain the mistakes, and provide corrected versions with clear explanations.", "✏️"⟩ ∧
    MODE_PROMPTS "Paragraph Writer" =
      some ⟨"You are a creative writing assistant. Help users write well-structured, coherent paragraphs on various topics. Provide multiple style options (formal, casual, academic) when appropriate.", "📝"⟩ ∧
    MODE_PROMPTS "Python Helper" =
      some ⟨"You are a Python programming tutor. Help users understand Python concepts, debug code, write better code, and follow best practices. Provide clear explanations with examples.", "🐍"⟩ ∧
    ∀ s : String, s ≠ "General Chat" → s ≠ "Grammar Checker" →
      s ≠ "Paragraph Writer" → s ≠ "Python Helper" → MODE_PROMPTS s = none := by
  refine ⟨rfl, rfl, rfl, rfl, ?_⟩
  intro s h1 h2 h3 h4
  unfold MODE_PROMPTS
  rw [if_neg h1, if_neg h2, if_neg h3, if_neg h4]

/-- C6 witness: lookup of a name outside the fixed set fails. -/
theorem C6_mode_registry_witness : MODE_PROMPTS "Essay Grader" = none :=
  C6_mode_registry.2.2.2.2 "Essay Grader" (by decide) (by decide) (by decide) (by decide)

/-- C9 counterexample: for the unknown mode name "unauthorized" the
dispatcher issues no request and does not raise, but it returns the
check-credential message, which is not of the generic
"Error generating response: ..." form — the `KeyError` text (the quoted
mode name) runs through the same substring classification. -/
theorem C9_counterexample :
    dispatch okClient "hello" "unauthorized" = (some AUTH_MSG, []) ∧
      ¬ ("Error generating response: ".data <+: AUTH_MSG.data) :=
  ⟨rfl, by decide⟩

/-- C9 (amended): for every mode name outside the registry the dispatcher
issues no network request at all, does not raise, and returns the
classification of the `KeyError` text (the quoted mode name); whenever that
quoted name contains none of the four classification substrings, the result
is the generic "Error generating response: " followed by the quoted name. -/
theorem C9_unknown_mode (client : Client) (ui mode : String)
    (hmode : MODE_PROMPTS mode = none) :
    (dispatch client ui mode).2 = [] ∧
    (get_response client ui mode).isSome ∧
    (strContains (keyErrorStr mode) "model_pending_deploy" = false →
      strContains (keyErrorStr mode) "not ready for inference" = false →
      strContains (pyLower (keyErrorStr mode)) "authentication" = false →
      strContains (pyLower (keyErrorStr mode)) "unauthorized" = false →
      get_response client ui mode =
        some ("Error generating response: " ++ keyErrorStr mode)) := by
  unfold get_response dispatch
  simp only [hmode]
  refine ⟨by simp, by simp, ?_⟩
  intro hn1 hn2 hn3 hn4
  simp [classify, hn1, hn2, hn3, hn4]

/-- C9 witness: a concrete unknown mode name that matches no classification
substring: no request is issued and the generic form comes back. -/
theorem C9_unknown_mode_witness :
    (dispatch okClient "hi" "Bogus Mode").2 = [] ∧
    get_response okClient "hi" "Bogus Mode" =
      some ("Error generating response: " ++ keyErrorStr "Bogus Mode") :=
  ⟨(C9_unknown_mode okClient "hi" "Bogus Mode" rfl).1,
   (C9_unknown_mode okClient "hi" "Bogus Mode" rfl).2.2
     (by decide) (by decide) (by decide) (by decide)⟩

/-- C1: if the first N candidates fail and attempt N+1 returns a completion
with a first choice, the dispatcher returns exactly that first choice's
content, issues exactly the first N+1 requests and none after, and the
errors of the first N attempts (quantified arbitrarily) have no effect on
the returned text. -/
theorem C1_fallback_short_circuit (client : Client) (ui mode : String) (cfg : ModeConfig)
    (hmode : MODE_PROMPTS mode = some cfg)
    (n : Nat) (hn : n < models_to_try.length)
    (hfail : ∀ m ∈ models_to_try.take n,
      ∃ e, client (mkRequest m cfg.system_prompt ui) = .exn e)
    (comp : Completion)
    (hok : client (mkRequest (models_to_try.getD n "") cfg.system_prompt ui) = .ok comp)
    (choice : Choice) (tail : List Choice)
    (hchoices : comp.choices = choice :: tail) :
    dispatch client ui mode =
      (some choice.message.content,
        (models_to_try.take (n + 1)).map fun m => mkRequest m cfg.system_prompt ui) := by
  unfold dispatch
  simp only [hmode]
  have hn4 : n < 4 := hn
  interval_cases n
  · have hok0 : client (mkRequest "Qwen/Qwen2.5-1.5B-Instruct" cfg.system_prompt ui) =
        .ok comp := hok
    have hrun : runModels client cfg.system_prompt ui lastCandidate models_to_try =
        (.returned choice.message.content,
          [mkRequest "Qwen/Qwen2.5-1.5B-Instruct" cfg.system_prompt ui]) := by
      simp [models_to_try, runModels, hok0, hchoices]
    rw [hrun]
    simp [models_to_try]
  · obtain ⟨e1, h1⟩ := hfail "Qwen/Qwen2.5-1.5B-Instruct" (by decide)
    have hok1 : client (mkRequest "mistralai/Mistral-7B-Instruct-v0.3" cfg.system_prompt ui) =
        .ok comp := hok
    have hrun : runModels client cfg.system_prompt ui lastCandidate models_to_try =
        (.returned choice.message.content,
          [mkRequest "Qwen/Qwen2.5-1.5B-Instruct" cfg.system_prompt ui,
           mkRequest "mistralai/Mistral-7B-Instruct-v0.3" cfg.system_prompt ui]) := by
      simp [models_to_try, lastCandidate_eq, runModels, h1, hok1, hchoices]
    rw [hrun]
    simp [models_to_try]
  · obtain ⟨e1, h1⟩ := hfail "Qwen/Qwen2.5-1.5B-Instruct" (by decide)
    obtain ⟨e2, h2⟩ := hfail "mistralai/Mistral-7B-Instruct-v0.3" (by decide)
    have hok2 : client (mkRequest "meta-llama/Llama-3.2-3B-Instruct" cfg.system_prompt ui) =
        .ok comp := hok
    have hrun : runModels client cfg.system_prompt ui lastCandidate models_to_try =
        (.returned choice.message.content,
          [mkRequest "Qwen/Qwen2.5-1.5B-Instruct" cfg.system_prompt ui,
           mkRequest "mistralai/Mistral-7B-Instruct-v0.3" cfg.system_prompt ui,
           mkRequest "meta-llama/Llama-3.2-3B-Instruct" cfg.system_prompt ui]) := by
      simp [models_to_try, lastCandidate_eq, runModels, h1, h2, hok2, hchoices]
    rw [hrun]
    simp [models_to_try]
  · obtain ⟨e1, h1⟩ := hfail "Qwen/Qwen2.5-1.5B-Instruct" (by decide)
    obtain ⟨e2, h2⟩ := hfail "mistralai/Mistral-7B-Instruct-v0.3" (by decide)
    obtain ⟨e3, h3⟩ := hfail "meta-llama/Llama-3.2-3B-Instruct" (by decide)
    have hok3 : client (mkRequest "google/gemma-2-2b-it" cfg.system_prompt ui) =
        .ok comp := hok
    have hrun : runModels client cfg.system_prompt ui lastCandidate models_to_try =
        (.returned choice.message.content,
          [mkRequest "Qwen/Qwen2.5-1.5B-Instruct" cfg.system_prompt ui,
           mkRequest "mistralai/Mistral-7B-Instruct-v0.3" cfg.system_prompt ui,
           mkRequest "meta-llama/Llama-3.2-3B-Instruct" cfg.system_prompt ui,
           mkRequest "google/gemma-2-2b-it" cfg.system_prompt ui]) := by
      simp [models_to_try, lastCandidate_eq, runModels, h1, h2, h3, hok3, hchoices]
    rw [hrun]
    simp [models_to_try]

/-- C1 witness: the first candidate fails, the second succeeds: the second
completion's first-choice content comes back and exactly two requests are
issued. -/
theorem C1_fallback_short_circuit_witness :
    dispatch mixedClient "salut" "General Chat" =
      (some "fallback answer",
        (models_to_try.take 2).map fun m =>
          mkRequest m "You are a helpful and friendly English learning assistant. Help the user with their questions in a clear and engaging way." "salut") :=
  C1_fallback_short_circuit mixedClient "salut" "General Chat" _ rfl 1 (by decide)
    (by intro m hm
        simp [models_to_try] at hm
        subst hm
        exact ⟨"boom", rfl⟩)
    ⟨[⟨⟨"fallback answer"⟩⟩]⟩ rfl ⟨⟨"fallback answer"⟩⟩ [] rfl

/-- C7: every request the dispatcher issues for a registered mode names one
of the four candidates and carries exactly two messages — first the system
role with the mode's prompt, then the user role with the user text — with
max output tokens 512, temperature 0.7 and top-p 0.9, identically for every
attempt. -/
theorem C7_request_shape (client : Client) (ui mode : String) (cfg : ModeConfig)
    (hmode : MODE_PROMPTS mode = some cfg) :
    ∀ r ∈ (dispatch client ui mode).2,
      r.model ∈ models_to_try ∧
      r.messages = [⟨"system", cfg.system_prompt⟩, ⟨"user", ui⟩] ∧
      r.max_tokens = 512 ∧ r.temperature = 7/10 ∧ r.top_p = 9/10 := by
  intro r hr
  rw [dispatch_trace client ui mode cfg hmode] at hr
  obtain ⟨m, hm, rfl⟩ :=
    runModels_trace_shape client cfg.system_prompt ui lastCandidate models_to_try r hr
  exact ⟨hm, rfl, rfl, rfl, rfl⟩

/-- C7 witness: the one request of a first-try success run has the stated
shape. -/
theorem C7_request_shape_witness :
    (mkRequest "Qwen/Qwen2.5-1.5B-Instruct"
        "You are a helpful and friendly English learning assistant. Help the user with their questions in a clear and engaging way." "hi").model ∈
        models_to_try ∧
      (mkRequest "Qwen/Qwen2.5-1.5B-Instruct"
        "You are a helpful and friendly English learning assistant. Help the user with their questions in a clear and engaging way." "hi").messages =
        [⟨"system", "You are a helpful and friendly English learning assistant. Help the user with their questions in a clear and engaging way."⟩, ⟨"user", "hi"⟩] ∧
      (mkRequest "Qwen/Qwen2.5-1.5B-Instruct"
        "You are a helpful and friendly English learning assistant. Help the user with their questions in a clear and engaging way." "hi").max_tokens = 512 ∧
      (mkRequest "Qwen/Qwen2.5-1.5B-Instruct"
        "You are a helpful and friendly English learning assistant. Help the user with their questions in a clear and engaging way." "hi").temperature = 7/10 ∧
      (mkRequest "Qwen/Qwen2.5-1.5B-Instruct"
        "You are a helpful and friendly English learning assistant. Help the user with their questions in a clear and engaging way." "hi").top_p = 9/10 :=
  C7_request_shape okClient "hi" "General Chat" _ rfl
    (mkRequest "Qwen/Qwen2.5-1.5B-Instruct"
      "You are a helpful and friendly English learning assistant. Help the user with their questions in a clear and engaging way." "hi")
    (List.mem_singleton.mpr rfl)

lemma runEvents_foldl (events : List UiEvent) :
    ∀ acc : List (String × String),
      events.foldl (fun msgs e => applyEvent e msgs)
        (acc.flatMap fun pr => [⟨"user", pr.1⟩, ⟨"assistant", pr.2⟩]) =
      (events.foldl
          (fun a e =>
            match e with
            | .submit prompt response => a ++ [(prompt, response)]
            | .clear => []) acc).flatMap
        fun pr => [⟨"user", pr.1⟩, ⟨"assistant", pr.2⟩] := by
  induction events with
  | nil => intro acc; rfl
  | cons e es ih =>
    intro acc
    cases e with
    | submit p r =>
      have h : applyEvent (.submit p r)
            (acc.flatMap fun pr => [⟨"user", pr.1⟩, ⟨"assistant", pr.2⟩]) =
          (acc ++ [(p, r)]).flatMap
            fun pr => [(⟨"user", pr.1⟩ : ChatTurn), ⟨"assistant", pr.2⟩] := by
        simp [applyEvent]
      simp only [List.foldl_cons, h]
      exact ih (acc ++ [(p, r)])
    | clear =>
      simp only [List.foldl_cons]
      have h : applyEvent .clear
            (acc.flatMap fun pr => [⟨"user", pr.1⟩, ⟨"assistant", pr.2⟩]) =
          (([] : List (String × String)).flatMap
            fun pr => [(⟨"user", pr.1⟩ : ChatTurn), ⟨"assistant", pr.2⟩]) := rfl
      rw [h]
      exact ih []

/-- C8: each submission appends exactly one user turn followed immediately
by one assistant turn (the dispatcher's returned string) to the transcript,
the clear action removes all turns in bulk, and the transcript of any event
sequence is exactly the chronological list of user/assistant turn pairs
submitted since the last clear — no reordering, no deduplication. -/
theorem C8_transcript_order :
    (∀ (msgs : List ChatTurn) (prompt resp : String) (client : Client) (mode : String),
        get_response client prompt mode = some resp →
        applyEvent (.submit prompt resp) msgs =
          msgs ++ [⟨"user", prompt⟩, ⟨"assistant", resp⟩]) ∧
    (∀ msgs : List ChatTurn, applyEvent .clear msgs = []) ∧
    (∀ events : List UiEvent, runEvents events = expectedTranscript events) := by
  refine ⟨?_, fun msgs => rfl, ?_⟩
  · intro msgs prompt resp client mode _h
    simp [applyEvent]
  · intro events
    unfold runEvents expectedTranscript sinceLastClear
    simpa using runEvents_foldl events []

/-- C8 witness: one submission whose response is the dispatcher's returned
string appends exactly the two turns at the end of an existing transcript. -/
theorem C8_transcript_order_witness :
    applyEvent (.submit "hi" "hello") [⟨"user", "a"⟩, ⟨"assistant", "b"⟩] =
      [⟨"user", "a"⟩, ⟨"assistant", "b"⟩, ⟨"user", "hi"⟩, ⟨"assistant", "hello"⟩] :=
  C8_transcript_order.1 [⟨"user", "a"⟩, ⟨"assistant", "b"⟩] "hi" "hello" okClient
    "General Chat" rfl

end QChat
